import Mathlib

/-!
# Verification of the type-inference and model-construction engine of `analysis.py`

This file gives a shallow embedding, in Lean 4, of the core of the
single source file of the repository, `analysis.py`: the expression type
resolver (`PythonAttr.find_type` with its helpers `attr_access_path` and
`find_attr`), the attribute extractor (`PythonAttr.from_ast` and
`PythonClass.build_body`), and the class model builder
(`PythonClass.from_object`).  Statements about the embedded definitions
settle the claims of the specification about that code.

## Modelling conventions

The Python code works over three kinds of data, each embedded explicitly:

* abstract-syntax nodes of the initializer body (the `ast` module): the
  inductives `Expr` and `Stmt` below, one constructor per node shape the
  source inspects (`ast.Num`, `ast.Str`, `ast.Tuple`, `ast.List`,
  `ast.Attribute`, `ast.Call`, `ast.Name`, `ast.IfExp`,
  `ast.NameConstant`, `ast.Dict`, `ast.Set`), plus `Expr.subscript` as a
  representative of node shapes the source never inspects;
* `typing` objects and runtime classes used as inferred types: the
  inductive `Typ`.  The Python code uses the value `None` as its
  "could not be found" sentinel, embedded as `Option.none` (so the
  resolver produces `Option Typ`); `typing` coerces a literal `None`
  appearing inside a subscript such as `Tuple[int, None]` to `NoneType`,
  which the subscript-building helpers below reproduce with
  `Option.getD .noneType`;
* live runtime objects walked by `getattr` chains (modules, classes,
  functions, `None`): the inductive `RtObj`.  `getattr(obj, a, None)` is
  `pygetattr`, and the Python builtin `type(obj)` is `py_type`.

Raised exceptions are embedded with `Except PyErr`: a Python statement
that raises is a computation producing `.error e`.  The retrieval and
parsing of the source text of the initializer (`inspect.getsourcelines`
followed by `ast.parse` in `build_body`) happens in the standard
library, outside this repository; `build_body` therefore receives the
outcome of that step as its input: either the parsed statement list of
the function body, or the exception the retrieval raised.
-/

/-- Exception classes that the embedded code can raise. -/
inductive PyErr where
  | typeError
  | valueError
  | osError
  | attributeError
deriving DecidableEq, Repr

/-- The runtime type of a Python numeric literal (`ast.Num`). -/
inductive NumKind where
  | int
  | float
deriving DecidableEq, Repr

/-- Expression context of an `ast.Attribute` node: assignment targets
carry `Store`, ordinary reads carry `Load`. -/
inductive Ctx where
  | load
  | store
deriving DecidableEq, Repr

/-- Embedded `typing` objects and runtime classes, as produced and
consumed by `find_type`.  `cls n` is a user class object used as a type;
`other d` stands for the remaining runtime classes that `type(obj)` can
yield (`module`, `function`, the metaclass `type`, ...); `emptyAnn` is
`inspect.Parameter.empty`, the raw annotation of an unannotated
parameter. -/
inductive Typ where
  | int
  | float
  | str
  | bool
  | noneType
  | any
  | emptyAnn
  | cls (name : String)
  | other (descr : String)
  | tuple (args : List Typ)
  | list (arg : Typ)
  | dict (key value : Typ)
  | union (args : List Typ)
  | callable (args : List Typ) (ret : Typ)

mutual

/-- Structural equality test on `Typ`, used to model the duplicate
removal `typing.Union` performs on its arguments. -/
def Typ.beq : Typ → Typ → Bool
  | .int, .int => true
  | .float, .float => true
  | .str, .str => true
  | .bool, .bool => true
  | .noneType, .noneType => true
  | .any, .any => true
  | .emptyAnn, .emptyAnn => true
  | .cls a, .cls b => a == b
  | .other a, .other b => a == b
  | .tuple xs, .tuple ys => Typ.beqList xs ys
  | .list a, .list b => Typ.beq a b
  | .dict k1 v1, .dict k2 v2 => Typ.beq k1 k2 && Typ.beq v1 v2
  | .union xs, .union ys => Typ.beqList xs ys
  | .callable xs r1, .callable ys r2 => Typ.beqList xs ys && Typ.beq r1 r2
  | _, _ => false

/-- Pointwise `Typ.beq` on lists. -/
def Typ.beqList : List Typ → List Typ → Bool
  | [], [] => true
  | x :: xs, y :: ys => Typ.beq x y && Typ.beqList xs ys
  | _, _ => false

end

instance : BEq Typ := ⟨Typ.beq⟩

/-- Flattening step of `typing.Union`: a nested union contributes its
argument list, any other type contributes itself. -/
def unionArms : Typ → List Typ
  | .union ts => ts
  | t => [t]

/-- Order-preserving duplicate removal, as `typing.Union` performs on
its (flattened) arguments. -/
def dedupTyps : List Typ → List Typ → List Typ
  | _, [] => []
  | seen, t :: ts =>
      if seen.contains t then dedupTyps seen ts
      else t :: dedupTyps (t :: seen) ts

/-- The subscript `typing.Union[args]` for a nonempty tuple of
arguments, each argument being a `find_type` result: a literal `None` is
coerced to `NoneType`, nested unions are flattened, duplicates removed,
and a single remaining argument is returned unwrapped. -/
def mkUnion (args : List (Option Typ)) : Typ :=
  let ts := (args.map (fun o => o.getD .noneType)).flatMap unionArms
  match dedupTyps [] ts with
  | [t] => t
  | ts => .union ts

/-- Embedded Python expression nodes (`ast` module), restricted to the
shapes `find_type` and `from_ast` inspect, plus `subscript` as a
representative uninspected shape. -/
inductive Expr where
  | num (kind : NumKind)
  | strLit (s : String)
  | nameConstant (value : Option Bool)
  | name (id : String)
  | attribute (value : Expr) (attr : String) (ctx : Ctx)
  | subscript (value : Expr)
  | call (func : Expr)
  | tuple (elts : List Expr)
  | listLit (elts : List Expr)
  | setLit (elts : List Expr)
  | dict (keys : List Expr) (values : List Expr)
  | ifExp (test : Expr) (body : Expr) (orelse : Expr)

/-- Embedded Python statement nodes: the two shapes `valid_ast` accepts
(`ast.Assign` and `ast.AnnAssign`) and a representative of everything
else. -/
inductive Stmt where
  | assign (targets : List Expr) (value : Expr)
  | annAssign (target : Expr) ( annotation : Expr) (value : Option Expr)
  | other

/-- Embedded live runtime objects, as walked by `find_attr`: the value
`None`, modules and classes with their attribute dictionaries, plain
functions with their (already evaluated) parameter and return
annotations, `typing` objects, and unevaluated-or-evaluated forward
references. -/
inductive RtObj where
  | pyNone
  | module (attrs : List (String × RtObj))
  | clsObj (name : String) (attrs : List (String × RtObj))
  | func (params : List (String × Option Typ)) (ret : Option Typ)
  | typV (t : Typ)
  | fref (value : Option Typ)

/-- The Python builtin `getattr(obj, a, None)`: attribute lookup with a `None`
default, as used inside `find_attr`. -/
def pygetattr : RtObj → String → RtObj
  | .module attrs, a => (List.lookup a attrs).getD .pyNone
  | .clsObj _ attrs, a => (List.lookup a attrs).getD .pyNone
  | _, _ => .pyNone

/-- The Python builtin `type(obj)` on the runtime objects of the embedding, as
used by the `ast.Attribute` branch of `find_type`. -/
def py_type : RtObj → Typ
  | .pyNone => .noneType
  | .module _ => .other "module"
  | .clsObj _ _ => .other "type"
  | .func _ _ => .other "function"
  | .typV _ => .other "typingMeta"
  | .fref _ => .other "ForwardRef"

/-- The initializer callable `fn`, as consulted by `find_type`:
`inspect.signature` order of parameters with their raw annotations
(`none` = unannotated), and the return annotation. -/
structure FuncObj where
  params : List (String × Option Typ)
  ret : Option Typ

/-- The lookup `typing.get_type_hints(fn).get(id)`: the annotation of
parameter `id` when one is declared, else `None`. -/
def FuncObj.hint (fn : FuncObj) (id : String) : Option Typ :=
  match List.lookup id fn.params with
  | some (some t) => some t
  | _ => none

/-- The owning class as `find_type` sees it: its name, the attribute
dictionary of its defining module (`inspect.getmodule(klass)`), and its
own attribute dictionary. -/
structure KlassObj where
  name : String
  moduleAttrs : List (String × RtObj)
  clsAttrs : List (String × RtObj)

/-- The defining module of the owning class, as a runtime object. -/
def KlassObj.mod (k : KlassObj) : RtObj := .module k.moduleAttrs

/-- The owning class itself, as a runtime object. -/
def KlassObj.rt (k : KlassObj) : RtObj := .clsObj k.name k.clsAttrs

/-- `PythonAttr.attr_access_path`: the chain of names of a nested
attribute access.  An `ast.Name` yields a singleton, an `ast.Attribute`
appends its attribute to the path of its value, and any other node falls off
the end of the function and yields the implicit Python `None` (embedded as
`.ok none`).  When the recursive call on the value of an `ast.Attribute`
yields `None`, the source evaluates `None + (obj.attr,)`, which raises
`TypeError`. -/
def attr_access_path : Expr → Except PyErr (Option (List String))
  | .name id => .ok (some [id])
  | .attribute v a _ => do
      match ← attr_access_path v with
      | some p => .ok (some (p ++ [a]))
      | none => .error .typeError
  | _ => .ok none

/-- The body of `PythonAttr.find_attr` once `path` is known to be a
sequence: the unpacking `first, *rest = path` raises `ValueError` on an
empty sequence; a leading `self` restarts the walk at the owning class
(the recursive call `cls.find_attr(rest, base, base)` always passes the
list `rest`); otherwise the chain is walked with `getattr(..., None)`
defaults from the module. -/
def find_attr_list : List String → RtObj → RtObj → Except PyErr RtObj
  | [], _, _ => .error .valueError
  | first :: rest, module, base =>
      if first = "self" then find_attr_list rest base base
      else .ok (rest.foldl pygetattr (pygetattr module first))

/-- `PythonAttr.find_attr`: walk a name chain with `getattr`.  The
source unpacks `first, *rest = path`, which raises `TypeError` when
`path` is `None` (as `attr_access_path` returns for unrecognized
shapes). -/
def find_attr : Option (List String) → RtObj → RtObj → Except PyErr RtObj
  | none, _, _ => .error .typeError
  | some p, module, base => find_attr_list p module base

/-- The non-`ast` tail of `PythonAttr.find_type`, reached when the
`typ` argument of the source is a runtime object rather than a syntax node:
the `FunctionType` branch builds a `Callable` from the raw signature,
the `_ForwardRef` branch returns `typ.__forward_value__`, and the final
`return typ` hands back the object itself (so `None` stays the `None`
sentinel, a `typing` object or class stays itself). -/
def find_type_obj : RtObj → Except PyErr (Option Typ)
  | .func params ret =>
      .ok (some (.callable (params.map (fun p => p.2.getD .emptyAnn))
        (ret.getD .emptyAnn)))
  | .fref v => .ok v
  | .pyNone => .ok none
  | .typV t => .ok (some t)
  | .clsObj n _ => .ok (some (.cls n))
  | .module _ => .ok (some (.other "module"))

/-- The lookup `typing.get_type_hints(obj).get("return")` performed by
the `ast.Call` branch of `find_type` on the object found for the
callee: a function yields its return annotation, a class or module has
no `"return"` annotation, and `get_type_hints` raises `TypeError` on
anything that is not a module, class or callable. -/
def get_type_hints_return : RtObj → Except PyErr (Option Typ)
  | .func _ ret => .ok ret
  | .clsObj _ _ => .ok none
  | .module _ => .ok none
  | _ => .error .typeError

mutual

/-- `PythonAttr.find_type` on a syntax node, one match arm per
`isinstance` branch of the source, in source order:

* `ast.Num` / `ast.Str` → the runtime type of the literal;
* `ast.Tuple` → `Tuple[elementtypes]`;
* `ast.List` → `List[Union[elementtypes]]`, or `List[Any]` when empty;
* `ast.Attribute` → walk the access path from the defining module (or
  the owning class for a `self` root) and take `type` of the object
  found;
* `ast.Call` → find the callee the same way; `None` when it cannot be
  found, else its declared return annotation;
* `ast.Name` → the parameter hint of the enclosing callable when one exists,
  else the object found at module scope; either way the result is fed
  back through `find_type` (its runtime-object tail `find_type_obj`);
* `ast.IfExp` → `Union` of the two arms;
* `ast.NameConstant` → `bool` for `True`/`False`, the `None` sentinel
  for `None`;
* `ast.Dict` → `Dict[Union[keytypes], Union[valuetypes]]` with `Any`
  for the empty sides;
* `ast.Set` → the element types are computed but the branch falls
  through to the final `isinstance(typ, ast.AST)` catch-all, which
  yields the `None` sentinel;
* any other node shape (`subscript` here) → the same catch-all `None`. -/
def find_type (k : KlassObj) (fn : FuncObj) : Expr → Except PyErr (Option Typ)
  | .num kind =>
      .ok (some (match kind with | .int => .int | .float => .float))
  | .strLit _ => .ok (some .str)
  | .tuple elts => do
      let ts ← find_types k fn elts
      .ok (some (.tuple (ts.map (fun o => o.getD .noneType))))
  | .listLit elts => do
      let ts ← find_types k fn elts
      .ok (some (.list (if ts.isEmpty then .any else mkUnion ts)))
  | .attribute v a c => do
      let path ← attr_access_path (.attribute v a c)
      let obj ← find_attr path k.mod k.rt
      .ok (some (py_type obj))
  | .call f => do
      let path ← attr_access_path f
      let obj ← find_attr path k.mod k.rt
      match obj with
      | .pyNone => .ok none
      | o => get_type_hints_return o
  | .name id =>
      match fn.hint id with
      | some t => find_type_obj (.typV t)
      | none => do
          let obj ← find_attr (some [id]) k.mod k.rt
          find_type_obj obj
  | .ifExp _ b o => do
      let tb ← find_type k fn b
      let te ← find_type k fn o
      .ok (some (mkUnion [tb, te]))
  | .nameConstant v =>
      .ok (match v with | some _ => some .bool | none => none)
  | .dict keys values => do
      let ks ← find_types k fn keys
      let vs ← find_types k fn values
      .ok (some (.dict (if ks.isEmpty then .any else mkUnion ks)
        (if vs.isEmpty then .any else mkUnion vs)))
  | .setLit elts => do
      let _ ← find_types k fn elts
      .ok none
  | .subscript _ => .ok none

/-- `find_type` mapped over the element list of a composite literal, as
the eagerly evaluated `tuple(cls.find_type(i, klass, fn) for i
in ...)`: the first raise aborts the whole tuple. -/
def find_types (k : KlassObj) (fn : FuncObj) : List Expr → Except PyErr (List (Option Typ))
  | [] => .ok []
  | e :: es => do
      let t ← find_type k fn e
      let ts ← find_types k fn es
      .ok (t :: ts)

end

/-- One extracted instance attribute: the `name` and `type`
fields of `PythonAttr` (`type` is `None` when inference failed). -/
structure PythonAttr where
  name : String
  type : Option Typ

/-- `check_self_attr` inside `PythonAttr.from_ast`: an `ast.Attribute`
node in `Store` context whose value is the bare name `self`. -/
def check_self_attr : Expr → Bool
  | .attribute (.name "self") _ .store => true
  | _ => false

/-- The right-hand-side values `helper` pairs with destructuring
targets: either a syntax node (the `elts` of a tuple literal) or a
runtime/`typing` object (`Tuple[...].__args__` elements, or the `None`
padding values). -/
inductive HV where
  | e (x : Expr)
  | t (v : Option Typ)

/-- The call `cls.find_type(value, klass, fn)` on a `helper` value:
dispatches a syntax node to the `ast` branches and an object to the
runtime-object tail. -/
def find_type_hv (k : KlassObj) (fn : FuncObj) : HV → Except PyErr (Option Typ)
  | .e x => find_type k fn x
  | .t none => find_type_obj .pyNone
  | .t (some t) => find_type_obj (.typV t)

mutual

/-- The inner `helper(var, value)` of `PythonAttr.from_ast`.  A tuple or
list target gets a value list: the elements of a tuple/list literal
value, else the `__args__` of the inferred type of the value when that type
is a `typing.Tuple`, else `[None] * len(var.elts)`; the target elements
are then paired with the value list.  A `self.x` target yields one
attribute typed by the inferred type of the value; any other target yields
nothing. -/
def helper (k : KlassObj) (fn : FuncObj) : Expr → HV → Except PyErr (List PythonAttr)
  | .tuple elts, value
  | .listLit elts, value => do
      let values ← match value with
        | .e (.tuple es) => pure (es.map HV.e)
        | .e (.listLit es) => pure (es.map HV.e)
        | _ => do
            let r ← find_type_hv k fn value
            match r with
            | some (.tuple ts) => pure (ts.map (fun t => HV.t (some t)))
            | _ => pure (List.replicate elts.length (HV.t none))
      helpers k fn elts values
  | .attribute v a c, value =>
      if check_self_attr (.attribute v a c) then do
        let t ← find_type_hv k fn value
        .ok [⟨a, t⟩]
      else .ok []
  | _, _ => .ok []

/-- The call `map(helper, var.elts, values)` of the source (concatenated by
`chain.from_iterable`): the two-iterable Python `map` stops at the
shorter list, so surplus targets or surplus values are dropped. -/
def helpers (k : KlassObj) (fn : FuncObj) : List Expr → List HV → Except PyErr (List PythonAttr)
  | [], _ => .ok []
  | _ :: _, [] => .ok []
  | v :: vs, h :: hs => do
      let a ← helper k fn v h
      let b ← helpers k fn vs hs
      .ok (a ++ b)

end

/-- `PythonAttr.valid_ast`: the statement shapes `build_body` keeps
(`ast.Assign` and `ast.AnnAssign`). -/
def valid_ast : Stmt → Bool
  | .assign _ _ => true
  | .annAssign _ _ _ => true
  | .other => false

/-- `PythonAttr.from_ast`.  An `ast.Assign` runs `helper` on each
target against the shared value.  An `ast.AnnAssign` whose target is a
`self` attribute stores `type(syntax.annotation.id)`: the `.id` field
exists only on `ast.Name`, so a `Name` annotation yields the type of
its `.id` string — which is `str`, whatever the annotation names — and
any other annotation shape raises `AttributeError`. -/
def from_ast (stx : Stmt) (k : KlassObj) (fn : FuncObj) : Except PyErr (List PythonAttr) :=
  match stx with
  | .assign targets value => do
      let rs ← targets.mapM (fun t => helper k fn t (.e value))
      .ok rs.flatten
  | .annAssign (.attribute v a c) annotation _ =>
      if check_self_attr (.attribute v a c) then
        match annotation with
        | .name _ => .ok [⟨a, some .str⟩]
        | _ => .error .attributeError
      else .ok []
  | .annAssign _ _ _ => .ok []
  | .other => .ok []

/-- `PythonClass.build_body`.  Its first step,
`inspect.getsourcelines` plus dedent plus `ast.parse`, happens in the
standard library and is received here as `src`: the parsed statement
list of the initializer body, or the exception source retrieval raised.
The source wraps only that step in `try: ... except TypeError: return
()`, so a `TypeError` yields the empty attribute list while every other
exception propagates; on success the valid statements are fed through
`from_ast` and concatenated. -/
def build_body (src : Except PyErr (List Stmt)) (k : KlassObj) (fn : FuncObj) :
    Except PyErr (List PythonAttr) :=
  match src with
  | .error .typeError => .ok []
  | .error e => .error e
  | .ok body => do
      let rs ← (body.filter valid_ast).mapM (fun s => from_ast s k fn)
      .ok rs.flatten

/-- One public method of the model: the `PythonMethod` name and resolved
signature. -/
structure MethodModel where
  name : String
  params : List (String × Option Typ)
  ret : Option Typ

/-- The structural record `PythonClass` builds per class: name, direct
base names, extracted attributes, public methods. -/
structure ClassModel where
  name : String
  parents : List String
  attrs : List PythonAttr
  methods : List MethodModel

/-- The reflected inputs that `PythonClass.from_object` reads off a
live class object: `__name__`, the `__qualname__`s of `__bases__`, the
already-normalized signatures of the public methods found by
`inspect.getmembers`, the source-retrieval outcome for `__init__`
(consumed by `build_body`), and the class and initializer as `find_type`
sees them. -/
structure ClassSrc where
  name : String
  parents : List String
  methods : List MethodModel
  initSrc : Except PyErr (List Stmt)
  klass : KlassObj
  initFn : FuncObj

/-- `PythonClass.from_object` composed with `PythonClass.__init__`:
extract the attributes from the initializer body and assemble the
structural record; an exception out of `build_body` propagates. -/
def from_object (c : ClassSrc) : Except PyErr ClassModel :=
  match build_body c.initSrc c.klass c.initFn with
  | .error e => .error e
  | .ok attrs => .ok ⟨c.name, c.parents, attrs, c.methods⟩

/-- An owning class named `C` in a module that defines nothing, with an
initializer `def __init__(self)` carrying no annotations: the simplest
concrete environment for evaluating the resolver. -/
def k0 : KlassObj := ⟨"C", [], []⟩

/-- The unannotated initializer `def __init__(self)`. -/
def fn0 : FuncObj := ⟨[("self", none)], none⟩

/-- The assignment target `self.x` for an attribute named `x`. -/
def selfTarget (n : String) : Expr := .attribute (.name "self") n .store

/-- Reduction of the `Except` bind on a success value. -/
theorem except_bind_ok {α β ε : Type} (x : α) (f : α → Except ε β) :
    (Except.ok x >>= f) = f x := rfl

/-- Reduction of the `Except` bind on an exception. -/
theorem except_bind_error {α β ε : Type} (e : ε) (f : α → Except ε β) :
    ((Except.error e : Except ε α) >>= f) = .error e := rfl

/-- An assignment with a single target extracts exactly what `helper`
yields for that target. -/
theorem from_ast_single (k : KlassObj) (fn : FuncObj) (t v : Expr) :
    from_ast (.assign [t] v) k fn = helper k fn t (.e v) := by
  cases hh : helper k fn t (.e v) <;>
    simp [from_ast, List.mapM.loop, hh, except_bind_ok, except_bind_error]

/-- A tuple target paired with a tuple-literal value hands the element
lists to the truncating pairing loop. -/
theorem helper_tuple_literal (k : KlassObj) (fn : FuncObj) (vs es : List Expr) :
    helper k fn (.tuple vs) (.e (.tuple es)) = helpers k fn vs (es.map HV.e) := rfl

/-- A tuple target paired with a list-literal value, likewise. -/
theorem helper_tuple_list_literal (k : KlassObj) (fn : FuncObj) (vs es : List Expr) :
    helper k fn (.tuple vs) (.e (.listLit es)) = helpers k fn vs (es.map HV.e) := rfl

/-- The pairing loop consumes targets only up to the length of the value
list: targets beyond it never reach `helper`. -/
theorem helpers_take (k : KlassObj) (fn : FuncObj) :
    ∀ (hs : List HV) (vs : List Expr), hs.length ≤ vs.length →
      helpers k fn vs hs = helpers k fn (vs.take hs.length) hs := by
  intro hs
  induction hs with
  | nil => intro vs h; cases vs <;> rfl
  | cons h hs ih =>
      intro vs hlen
      cases vs with
      | nil => simp at hlen
      | cons v vs =>
          simp only [List.length_cons, List.take_succ_cons, helpers,
            ih vs (Nat.le_of_succ_le_succ hlen)]

/-- Claim C1: the resolver is claimed total (`Unknown` for unrecognized
shapes, never an exception), but on an attribute chain whose root is
not a plain name — here the expression `a[0].b`, an `ast.Attribute`
whose value is an `ast.Subscript` — `attr_access_path` returns `None`
for the subscript and the enclosing call then evaluates
`None + (obj.attr,)`, raising `TypeError`; the exception propagates out
of `find_type` and out of the attribute extractor. -/
theorem C1_subscript_rooted_chain_raises :
    find_type k0 fn0 (.attribute (.subscript (.name "a")) "b" .load) = .error .typeError ∧
    from_ast (.assign [selfTarget "x"]
      (.attribute (.subscript (.name "a")) "b" .load)) k0 fn0 = .error .typeError :=
  ⟨rfl, rfl⟩

/-- Claim C2: the annotated assignment `self.x: T = expr` is claimed to
produce an attribute typed by the annotation `T`; the source instead
stores `type(syntax.annotation.id)` — the runtime type of the `.id`
string of the annotation node — which is `str` for every `Name`
annotation: `self.x: int = 5` yields type `str`, `self.y: str =
compute()` yields `str` only by this coincidence, and an annotation
that is not a bare name has no `.id` and raises `AttributeError`. -/
theorem C2_annotated_assignment_stores_str :
    from_ast (.annAssign (selfTarget "x") (.name "int") (some (.num .int))) k0 fn0
      = .ok [⟨"x", some .str⟩] ∧
    from_ast (.annAssign (selfTarget "y") (.name "str") (some (.call (.name "compute")))) k0 fn0
      = .ok [⟨"y", some .str⟩] ∧
    from_ast (.annAssign (selfTarget "w") (.subscript (.name "List")) none) k0 fn0
      = .error .attributeError :=
  ⟨rfl, rfl, rfl⟩

/-- Claim C3: building a class whose initializer contains
`self.next = self` is claimed to terminate with the attribute typed by
the class itself; instead `find_type` on the bare name `self` calls
`find_attr(("self",), ...)`, whose `self` branch recurses on the empty
path, and the unpacking `first, *rest = []` raises `ValueError`, which
propagates out of `build`. -/
theorem C3_self_reference_raises :
    find_type ⟨"Node", [], []⟩ fn0 (.name "self") = .error .valueError ∧
    from_object ⟨"Node", ["object"], [],
      .ok [.assign [selfTarget "next"] (.name "self")], ⟨"Node", [], []⟩, fn0⟩
      = .error .valueError :=
  ⟨rfl, rfl⟩

/-- Claim C4: an attribute-access chain whose root name cannot be found
is claimed to resolve to `Unknown`; the source instead walks the chain
with `getattr(..., None)` defaults, ends at the value `None`, and
returns `type(None)` — the none-type `NoneType`, a genuine type and not
the `None` sentinel: `self.z = missing.attr.chain` yields the attribute
`z : NoneType`. -/
theorem C4_unresolvable_chain_yields_NoneType :
    from_ast (.assign [selfTarget "z"]
      (.attribute (.attribute (.name "missing") "attr" .load) "chain" .load)) k0 fn0
      = .ok [⟨"z", some .noneType⟩] ∧
    find_type k0 fn0 (.attribute (.attribute (.name "missing") "attr" .load) "chain" .load)
      ≠ .ok none := by
  refine ⟨rfl, ?_⟩
  intro h
  have h2 : (Except.ok (some Typ.noneType) : Except PyErr (Option Typ)) = .ok none := h
  simp at h2

/-- Claim C5: literal inference.  The tuple literal `(1, "x")` infers
as the fixed-arity tuple `Tuple[int, str]`; the empty list literal
infers as `List[Any]` and the empty dict literal as `Dict[Any, Any]` —
`typing.Any`, the unconstrained element type the specification renders
as `Unknown` in element position. -/
theorem C5_literal_inference :
    from_ast (.assign [selfTarget "t"] (.tuple [.num .int, .strLit "x"])) k0 fn0
      = .ok [⟨"t", some (.tuple [.int, .str])⟩] ∧
    from_ast (.assign [selfTarget "l"] (.listLit [])) k0 fn0
      = .ok [⟨"l", some (.list .any)⟩] ∧
    from_ast (.assign [selfTarget "d"] (.dict [] [])) k0 fn0
      = .ok [⟨"d", some (.dict .any .any)⟩] :=
  ⟨rfl, rfl, rfl⟩

/-- Claim C6, counterexample: the `None` literal is claimed to resolve
to a none-type result distinguishable from the `Unknown` sentinel; the
source branch `type(typ.value) if typ.value is not None else None`
returns the sentinel `None` itself for a `None` literal — the very same
output as an unrecognized expression shape — and not the type
`NoneType`. -/
theorem C6_none_literal_counterexample :
    find_type k0 fn0 (.nameConstant none) = .ok none ∧
    find_type k0 fn0 (.nameConstant none) = find_type k0 fn0 (.subscript (.name "q")) ∧
    find_type k0 fn0 (.nameConstant none) ≠ .ok (some .noneType) := by
  refine ⟨rfl, rfl, ?_⟩
  intro h
  have h2 : (Except.ok (none : Option Typ) : Except PyErr (Option Typ))
      = .ok (some .noneType) := h
  simp at h2

/-- Claim C6, amended: for every `None` literal the resolver returns
the `None`/`Unknown` sentinel (indistinguishable from an unresolvable
result), while `True` and `False` literals return the concrete type
`bool`. -/
theorem C6_none_literal_amended (k : KlassObj) (fn : FuncObj) :
    find_type k fn (.nameConstant none) = .ok none ∧
    find_type k fn (.nameConstant (some true)) = .ok (some .bool) ∧
    find_type k fn (.nameConstant (some false)) = .ok (some .bool) :=
  ⟨rfl, rfl, rfl⟩

/-- Claim C7, counterexample: attribute extraction is claimed to return
an empty sequence for every way source retrieval can fail; the source
wraps `inspect.getsourcelines` in `except TypeError` only, so the
`OSError` raised for a callable with no retrievable file source (for
example one created by `exec`) propagates instead of being absorbed. -/
theorem C7_osError_propagates :
    build_body (.error .osError) k0 fn0 = .error .osError ∧
    build_body (.error .osError) k0 fn0 ≠ .ok [] := by
  refine ⟨rfl, ?_⟩
  intro h
  have h2 : (Except.error .osError : Except PyErr (List PythonAttr)) = .ok [] := h
  simp at h2

/-- Claim C7, amended: when source retrieval fails with a `TypeError`
(as it does for built-in callables), attribute extraction returns the
empty sequence rather than raising. -/
theorem C7_typeError_fails_soft (k : KlassObj) (fn : FuncObj) :
    build_body (.error .typeError) k fn = .ok [] := rfl

/-- Claim C8: building the class model is deterministic in the
reflected inputs — two builds of an unchanged class yield structurally
equal models (same name, base names, attribute sequence, and method
sequence). -/
theorem C8_build_deterministic (c : ClassSrc) (m1 m2 : ClassModel)
    (h1 : from_object c = .ok m1) (h2 : from_object c = .ok m2) :
    m1.name = m2.name ∧ m1.parents = m2.parents ∧ m1.attrs = m2.attrs ∧
      m1.methods = m2.methods := by
  have h := Except.ok.inj (h1.symm.trans h2)
  subst h
  exact ⟨rfl, rfl, rfl, rfl⟩

/-- Claim C8, witness: two builds of a concrete class succeed and agree
field by field. -/
theorem C8_build_deterministic_witness :
    (ClassModel.mk "C" ["object"] [] []).name = (ClassModel.mk "C" ["object"] [] []).name ∧
    (ClassModel.mk "C" ["object"] [] []).parents = (ClassModel.mk "C" ["object"] [] []).parents ∧
    (ClassModel.mk "C" ["object"] [] []).attrs = (ClassModel.mk "C" ["object"] [] []).attrs ∧
    (ClassModel.mk "C" ["object"] [] []).methods = (ClassModel.mk "C" ["object"] [] []).methods :=
  C8_build_deterministic ⟨"C", ["object"], [], .ok [], k0, fn0⟩
    (ClassModel.mk "C" ["object"] [] []) (ClassModel.mk "C" ["object"] [] []) rfl rfl

/-- Claim C9, counterexample: every set literal is claimed to resolve
to `Unknown`, but the set branch eagerly computes the element types
before falling through, so a set literal with an element whose
resolution raises — here `{a[0].b}` — raises instead of returning the
sentinel. -/
theorem C9_set_literal_counterexample :
    find_type k0 fn0 (.setLit [.attribute (.subscript (.name "a")) "b" .load])
      = .error .typeError ∧
    find_type k0 fn0 (.setLit [.attribute (.subscript (.name "a")) "b" .load])
      ≠ .ok none := by
  refine ⟨rfl, ?_⟩
  intro h
  have h2 : (Except.error .typeError : Except PyErr (Option Typ)) = .ok none := h
  simp at h2

/-- Claim C9, amended: for every set literal whose element types all
resolve without raising, the resolver returns the `None`/`Unknown`
sentinel — the set branch computes the element types, never builds a
set or container type from them, and falls through to the generic
unrecognized-shape case. -/
theorem C9_set_literal_amended (elts : List Expr) (k : KlassObj) (fn : FuncObj)
    (rs : List (Option Typ)) (h : find_types k fn elts = .ok rs) :
    find_type k fn (.setLit elts) = .ok none := by
  show (do
    let _ ← find_types k fn elts
    (.ok none : Except PyErr (Option Typ))) = .ok none
  rw [h]
  rfl

/-- Claim C9, witness: a concrete set literal whose single element
resolves, and whose resolution result is the sentinel. -/
theorem C9_set_literal_amended_witness :
    find_types k0 fn0 [.num .int] = .ok [some .int] ∧
    find_type k0 fn0 (.setLit [.num .int]) = .ok none :=
  ⟨rfl, C9_set_literal_amended [.num .int] k0 fn0 [some .int] rfl⟩

/-- Claim C10: in a destructuring assignment whose right-hand side is a
tuple or list literal with fewer elements than there are targets, the
surplus targets are paired with nothing — the extractor produces the
same attribute sequence as if the assignment had only the first
`es.length` targets, so the surplus instance-attribute targets yield no
AttributeModel at all. -/
theorem C10_surplus_targets_dropped (k : KlassObj) (fn : FuncObj)
    (names : List String) (es : List Expr) (h : es.length < names.length) :
    from_ast (.assign [.tuple (names.map selfTarget)] (.tuple es)) k fn =
      from_ast (.assign [.tuple ((names.take es.length).map selfTarget)] (.tuple es)) k fn ∧
    from_ast (.assign [.tuple (names.map selfTarget)] (.listLit es)) k fn =
      from_ast (.assign [.tuple ((names.take es.length).map selfTarget)] (.listLit es)) k fn := by
  have hlen : (es.map HV.e).length ≤ (names.map selfTarget).length := by
    simpa using Nat.le_of_lt h
  have htake : (names.map selfTarget).take (es.map HV.e).length
      = (names.take es.length).map selfTarget := by
    simp [List.map_take]
  constructor
  · rw [from_ast_single, from_ast_single, helper_tuple_literal, helper_tuple_literal,
      helpers_take k fn (es.map HV.e) (names.map selfTarget) hlen, htake]
  · rw [from_ast_single, from_ast_single, helper_tuple_list_literal, helper_tuple_list_literal,
      helpers_take k fn (es.map HV.e) (names.map selfTarget) hlen, htake]

/-- Claim C10, witness: three targets destructured from a two-element
tuple behave exactly as the first two targets alone. -/
theorem C10_surplus_targets_dropped_witness :
    ([Expr.num .int, Expr.strLit "x"] : List Expr).length
      < (["a", "b", "c"] : List String).length ∧
    (from_ast (.assign [.tuple (["a", "b", "c"].map selfTarget)]
        (.tuple [.num .int, .strLit "x"])) k0 fn0 =
      from_ast (.assign [.tuple ((["a", "b", "c"].take
          ([Expr.num .int, Expr.strLit "x"] : List Expr).length).map selfTarget)]
        (.tuple [.num .int, .strLit "x"])) k0 fn0 ∧
    from_ast (.assign [.tuple (["a", "b", "c"].map selfTarget)]
        (.listLit [.num .int, .strLit "x"])) k0 fn0 =
      from_ast (.assign [.tuple ((["a", "b", "c"].take
          ([Expr.num .int, Expr.strLit "x"] : List Expr).length).map selfTarget)]
        (.listLit [.num .int, .strLit "x"])) k0 fn0) :=
  ⟨by decide, C10_surplus_targets_dropped k0 fn0 ["a", "b", "c"]
    [.num .int, .strLit "x"] (by decide)⟩
